import Mathlib

/-!
Verification of the Threat-Explorer backend: a shallow embedding of the
tool-calling agent loop (backend/agents/react_agent.py, llm_agent.py), the
database tool wrapper (backend/tools/database_tool.py), the database service
(backend/db/database.py) and the MCP dispatcher (backend/mcp/database_server.py),
together with theorems settling the spec claims about them.
-/

/-- A database row: the attacks table is loaded with every column as TEXT,
so a row is a list of strings (backend/db/database.py, _load_csv). -/
abbrev Row := List String

/-- The in-memory attacks table: an ordered list of rows.  Column names are
omitted from the model; no claim concerns them. -/
abbrev Table := List Row

/-- Character-level prefix test, the computable core of the string operations
below (the library string functions are replaced by structurally recursive
versions so that concrete executions reduce inside proofs). -/
def isSeqPrefix : List Char → List Char → Bool
  | [], _ => true
  | _ :: _, [] => false
  | a :: ps, b :: ss => a == b && isSeqPrefix ps ss

/-- Substring occurrence test on character lists: whether pat occurs
contiguously somewhere in the list. -/
def seqOccurs (pat : List Char) : List Char → Bool
  | [] => isSeqPrefix pat []
  | b :: rest => isSeqPrefix pat (b :: rest) || seqOccurs pat rest

/-- The prefix of a character list before the first occurrence of pat. -/
def takeUntilSeq (pat : List Char) : List Char → List Char
  | [] => []
  | b :: rest => if isSeqPrefix pat (b :: rest) then [] else b :: takeUntilSeq pat rest

/-- Surrounding-whitespace removal on character lists, the strip operation of
the source. -/
def trimChars (l : List Char) : List Char :=
  ((l.dropWhile Char.isWhitespace).reverse.dropWhile Char.isWhitespace).reverse

/-- Numeric literal parse on character lists: some value when the list is
non-empty and all digits, none otherwise. -/
def digitsVal (l : List Char) : Option Nat :=
  l.foldl
    (fun acc c =>
      match acc with
      | none => none
      | some n => if c.isDigit then some (n * 10 + (c.toNat - 48)) else none)
    (some 0)

/-- Numeric literal parse rejecting the empty list. -/
def digitsToNat? (l : List Char) : Option Nat :=
  if l.isEmpty then none else digitsVal l

/-- Models the SQLite line comment rule used by the external engine: text from
the first occurrence of a double dash to the end of the (single-line) statement
is ignored. -/
def stripLineComment (s : String) : String :=
  String.mk (takeUntilSeq "--".data s.data)

/-- The statement text the engine parses: comments removed, surrounding
whitespace trimmed. -/
def normalizeSql (s : String) : String :=
  String.mk (trimChars (stripLineComment s).data)

/-- Parses a select-all statement over the attacks table, as the external
engine would: returns some none for a select without a LIMIT clause, and
some (some n) when a trailing LIMIT n clause is present.  Models the
sqlite3 engine (an external dependency of backend/db/database.py) on the
statement fragment the claims exercise; any other text is a syntax error. -/
def parseLimitedSelect (q : String) : Option (Option Nat) :=
  if q = "SELECT * FROM attacks" then some none
  else if isSeqPrefix "SELECT * FROM attacks LIMIT ".data q.data then
    (digitsToNat? (q.data.drop "SELECT * FROM attacks LIMIT ".data.length)).map some
  else none

/-- Outcome of handing one statement to the external engine: the table contents
afterwards (mutations on the shared connection are visible to later calls) and
either an error message, or some rows for a SELECT, or none for a statement
that produces no result set (the cursor description is then None). -/
structure ExecOutcome where
  table : Table
  result : Except String (Option (List Row))

/-- Models the external sqlite3 engine on the fragment used by the claims:
a DELETE over the whole attacks table empties it and yields no result set;
a select-all (with optional LIMIT) reads without mutating; anything else is
a syntax error with a non-empty message and no mutation. -/
def sqliteExec (sql : String) (t : Table) : ExecOutcome :=
  let q := normalizeSql sql
  if q = "DELETE FROM attacks" then { table := [], result := Except.ok none }
  else
    match parseLimitedSelect q with
    | some none => { table := t, result := Except.ok (some t) }
    | some (some n) => { table := t, result := Except.ok (some (t.take n)) }
    | none => { table := t, result := Except.error "syntax error" }

/-- Message raised when DatabaseService.query iterates cursor.description after
a statement with no result set: the description is None and the comprehension
over it raises a TypeError. -/
def noneDescriptionError : String := "NoneType object is not iterable"

/-- Embeds DatabaseService.query (backend/db/database.py): passes the SQL to
the engine unmodified and converts the rows of the result set; if the
statement produced no result set, reading the column descriptions raises.
The first component is the table contents after the call. -/
def DatabaseService.query (sql : String) (t : Table) : Table × Except String (List Row) :=
  let o := sqliteExec sql t
  match o.result with
  | Except.error e => (o.table, Except.error e)
  | Except.ok none => (o.table, Except.error noneDescriptionError)
  | Except.ok (some rows) => (o.table, Except.ok rows)

/-- Embeds the row-limiting step of query_database (backend/tools/database_tool.py
lines 24 to 26): the substring membership test of the source, applied to
the uppercased stripped query. -/
def containsToken (s pat : String) : Bool :=
  seqOccurs pat.data s.data

/-- Upper-casing, the upper operation applied before the membership test. -/
def upperString (s : String) : String :=
  String.mk (s.data.map Char.toUpper)

/-- The SQL string query_database actually executes for a given input query:
the query is stripped, and a LIMIT 50 clause is appended exactly when the
uppercased text does not contain the substring LIMIT. -/
def applyDefaultLimit (query : String) : String :=
  let sql := String.mk (trimChars query.data)
  if containsToken (upperString sql) "LIMIT" then sql else sql ++ " LIMIT 50"

/-- The JSON envelope query_database returns, as a structured value: the
source serializes it with json.dumps, which no caller inspects beyond shape. -/
inductive ToolEnvelope where
  | success (row_count : Nat) (data : List Row)
  | failure (error : String)
deriving DecidableEq, Repr

/-- Embeds query_database (backend/tools/database_tool.py): applies the default
limit, runs DatabaseService.query, and converts the outcome into the
success or failure envelope; every exception is caught, so the function is
total and never propagates an error.  The first component is the table
contents after the call. -/
def query_database (query : String) (t : Table) : Table × ToolEnvelope :=
  let sql := applyDefaultLimit query
  let r := DatabaseService.query sql t
  match r.2 with
  | Except.ok rows => (r.1, ToolEnvelope.success rows.length rows)
  | Except.error e => (r.1, ToolEnvelope.failure e)

/-- Schema description returned by DatabaseService.get_table_info; column
metadata is omitted as no claim concerns it. -/
structure TableInfo where
  table_name : String
  row_count : Nat
deriving DecidableEq, Repr

/-- Embeds get_database_info (backend/tools/database_tool.py) over the model
with the schema introspection of DatabaseService.get_table_info. -/
def get_database_info (t : Table) : TableInfo :=
  { table_name := "attacks", row_count := t.length }

/-- Result of one agent-side tool dispatch (LLMAgent._execute_tool): the source
returns a JSON string in every branch; the model keeps the branches apart. -/
inductive ToolReply where
  | queryResult (env : ToolEnvelope)
  | infoResult (info : TableInfo)
  | unknownTool (error : String)
deriving DecidableEq, Repr

/-- Embeds LLMAgent._execute_tool (backend/agents/llm_agent.py lines 59 to 66):
dispatch by tool name, with an error envelope, not an exception, for a name
outside the registry.  The argument mapping is abstracted to its single
query string field, the only field the registry declares. -/
def LLMAgent.executeTool (t : Table) (tool_name : String) (args : String) :
    Table × ToolReply :=
  if tool_name = "query_database" then
    let r := query_database args t
    (r.1, ToolReply.queryResult r.2)
  else if tool_name = "get_database_info" then
    (t, ToolReply.infoResult (get_database_info t))
  else
    (t, ToolReply.unknownTool ("Unknown tool: " ++ tool_name))

/-- Reply of the MCP dispatcher for a known tool. -/
inductive McpReply where
  | queryText (env : ToolEnvelope)
  | infoText (info : TableInfo)
deriving DecidableEq, Repr

/-- Embeds handle_call_tool (backend/mcp/database_server.py): the query branch
repeats the default-limit logic of the database tool verbatim and wraps
every exception into a failure envelope; the info branch likewise; an
unknown tool name raises a ValueError, modelled as the error of the
returned Except. -/
def handle_call_tool (t : Table) (name args : String) :
    Table × Except String McpReply :=
  if name = "query_database" then
    let sql := applyDefaultLimit args
    let r := DatabaseService.query sql t
    match r.2 with
    | Except.ok rows =>
        (r.1, Except.ok (McpReply.queryText (ToolEnvelope.success rows.length rows)))
    | Except.error e =>
        (r.1, Except.ok (McpReply.queryText (ToolEnvelope.failure e)))
  else if name = "get_database_info" then
    (t, Except.ok (McpReply.infoText (get_database_info t)))
  else
    (t, Except.error ("Unknown tool: " ++ name))

/-- A conversation message of the agent API (backend/agents/base.py, Message):
role and content; the optional timestamp and agent-type fields never
influence chat behaviour and are omitted. -/
structure Message where
  role : String
  content : String
deriving DecidableEq, Repr

/-- One tool-call request contained in a model response: name, arguments and
call id.  The argument mapping is abstracted to its single query string
field, the only field the tool schemas declare. -/
structure ToolCall where
  name : String
  args : String
  id : String
deriving DecidableEq, Repr

/-- Token counts a model invocation may report inside response metadata;
each field optional, mirroring dict lookups with a default of zero. -/
structure TokenUsage where
  prompt_tokens : Option Nat
  completion_tokens : Option Nat
  total_tokens : Option Nat
deriving DecidableEq, Repr

/-- A model backend response: text content, the list of requested tool calls
(empty when the model answers directly), and optional token usage; none
models a response metadata mapping without a token usage entry. -/
structure ModelResponse where
  content : String
  tool_calls : List ToolCall
  token_usage : Option TokenUsage
deriving DecidableEq, Repr

/-- The LangChain-level conversation messages the agents accumulate: system,
human, the full model response appended as the assistant turn, and tool
result turns carrying the result text and the call id. -/
inductive LCMessage where
  | system (content : String)
  | human (content : String)
  | ai (response : ModelResponse)
  | tool (content : String) (tool_call_id : String)
deriving DecidableEq, Repr

/-- The external model backend (ChatOpenAI with bound tools): invoked on the
accumulated messages, it returns a response or raises, modelled as Except.
The agents treat it as an opaque synchronous call. -/
abbrev ModelBackend := List LCMessage → Except String ModelResponse

/-- Content attribute of a LangChain message, as read by final_message.content. -/
def contentOf : LCMessage → String
  | LCMessage.system c => c
  | LCMessage.human c => c
  | LCMessage.ai r => r.content
  | LCMessage.tool c _ => c

/-- Usage counters of the agent response envelope; none models the empty dict. -/
structure Usage where
  prompt_tokens : Nat
  completion_tokens : Nat
  total_tokens : Nat
deriving DecidableEq, Repr

/-- Metadata mapping of the agent response envelope; each optional field models
the presence or absence of the corresponding dictionary key. -/
structure Metadata where
  agent_type : String
  error : Option String := none
  tools_used : Option (List String) := none
  iterations : Option Nat := none
deriving DecidableEq, Repr

/-- The agent response envelope (backend/agents/base.py, AgentResponse). -/
structure AgentResponse where
  message : Message
  usage : Option Usage := none
  metadata : Metadata
deriving DecidableEq, Repr

/-- Conversion of an API message into the LangChain list, as both agents do:
user becomes a human message, assistant an AI message without tool calls,
and every other role is skipped. -/
def toLCMessage (m : Message) : Option LCMessage :=
  if m.role = "user" then some (LCMessage.human m.content)
  else if m.role = "assistant" then
    some (LCMessage.ai { content := m.content, tool_calls := [], token_usage := none })
  else none

/-- A ReACT agent tool: a name and a callable on the argument string.  The
source tools wrap the database; their behaviour is irrelevant to the loop
claims, so the callable is kept pure and unconstrained. -/
structure Tool where
  name : String
  invoke : String → String

/-- Modelled from the spec: backend/tools/__init__.py, which defines the
query_db_tool and get_db_info constructors that ReACTAgent._create_tools
calls, is not under src.  Section 4.2 of the spec declares exactly two
registry tools, a run-query tool wrapping execute and a describe-schema
tool wrapping describeSchema; their result strings are abstracted. -/
def reactTools : List Tool :=
  [ { name := "run query", invoke := fun _ => "QUERY_RESULT" },
    { name := "describe schema", invoke := fun _ => "SCHEMA_INFO" } ]

/-- Tool execution inside the ReACT loop: linear scan of the registry for the
first tool with a matching name; when none matches, the result variable
stays None and str of it becomes the tool message content. -/
def strToolResult (tools : List Tool) (tc : ToolCall) : String :=
  match tools.find? (fun tool => tool.name == tc.name) with
  | some tool => tool.invoke tc.args
  | none => "None"

/-- Final state of the ReACT loop: the accumulated messages, the iteration
counter at exit, and the number of model invocations performed (the source
performs exactly one invocation per iteration; the count is kept explicit
so theorems can speak about it). -/
structure ReactLoopResult where
  msgs : List LCMessage
  iterations : Nat
  calls : Nat
deriving Repr

/-- Embeds the bounded while loop of ReACTAgent.chat (backend/agents/react_agent.py
lines 75 to 110): the first argument is the remaining iteration budget
(max_iterations minus iterations done), starting at 5.  Each round invokes
the model, appends the response, stops when it carries no tool calls, and
otherwise executes every requested call in order, appending one tool
message per call.  A backend exception aborts the loop, carrying the
message and the number of invocations attempted. -/
def reactLoop (tools : List Tool) (model : ModelBackend) :
    Nat → Nat → Nat → List LCMessage → Except (String × Nat) ReactLoopResult
  | 0, iteration, calls, msgs => Except.ok { msgs := msgs, iterations := iteration, calls := calls }
  | fuel + 1, iteration, calls, msgs =>
    match model msgs with
    | Except.error e => Except.error (e, calls + 1)
    | Except.ok resp =>
      let msgs2 := msgs ++ [LCMessage.ai resp]
      if resp.tool_calls.isEmpty then
        Except.ok { msgs := msgs2, iterations := iteration + 1, calls := calls + 1 }
      else
        reactLoop tools model fuel (iteration + 1) (calls + 1)
          (msgs2 ++ resp.tool_calls.map (fun tc => LCMessage.tool (strToolResult tools tc) tc.id))

/-- The early response of ReACTAgent.chat when the converted conversation holds
only the system message. -/
def noMessagesResponse : AgentResponse :=
  { message := { role := "assistant", content := "No messages provided." },
    usage := none,
    metadata := { agent_type := "react", error := some "No messages" } }

/-- Embeds ReACTAgent.chat (backend/agents/react_agent.py lines 34 to 143),
instrumented with the number of model invocations performed as the second
component.  The system prompt constant and the tool list are parameters;
the source fixes them to REACT_AGENT_SYSTEM_PROMPT and _create_tools().
Role conversion, the no-messages guard, the bounded loop, the final
content read from the last accumulated message, and the catch-all turning
a backend exception into an explanatory normal response are all mirrored. -/
def ReACTAgent.chatCore (tools : List Tool) (model : ModelBackend)
    (sysPrompt : String) (messages : List Message) : AgentResponse × Nat :=
  let lc := LCMessage.system sysPrompt :: messages.filterMap toLCMessage
  if lc.length = 1 then (noMessagesResponse, 0)
  else
    match reactLoop tools model 5 0 0 lc with
    | Except.error (e, n) =>
      ({ message := { role := "assistant",
                      content := "I encountered an error while processing your request: " ++ e },
         usage := none,
         metadata := { agent_type := "react", error := some e } }, n)
    | Except.ok r =>
      ({ message := { role := "assistant",
                      content := contentOf (r.msgs.getLastD (LCMessage.system sysPrompt)) },
         usage := none,
         metadata := { agent_type := "react",
                       tools_used := some (tools.map Tool.name),
                       iterations := some r.iterations } }, r.calls)

/-- ReACTAgent.chat as the caller sees it: the response envelope alone. -/
def ReACTAgent.chat (tools : List Tool) (model : ModelBackend)
    (sysPrompt : String) (messages : List Message) : AgentResponse :=
  (ReACTAgent.chatCore tools model sysPrompt messages).1

/-- Token usage extraction of LLMAgent.chat (backend/agents/llm_agent.py lines
181 to 189): no token usage entry in the response metadata leaves the usage
dict empty; present entries fall back to zero per missing key. -/
def extractUsage : Option TokenUsage → Option Usage
  | none => none
  | some tu =>
    some { prompt_tokens := tu.prompt_tokens.getD 0,
           completion_tokens := tu.completion_tokens.getD 0,
           total_tokens := tu.total_tokens.getD 0 }

/-- Rendering of a tool reply into the tool message content: the source uses
json.dumps; the text is opaque to the loop and to the model stubs, so a
simple rendering suffices. -/
def ToolReply.render : ToolReply → String
  | ToolReply.queryResult (ToolEnvelope.success n _) => "success rows " ++ toString n
  | ToolReply.queryResult (ToolEnvelope.failure e) => "failure " ++ e
  | ToolReply.infoResult i => "info " ++ i.table_name ++ " rows " ++ toString i.row_count
  | ToolReply.unknownTool e => "error " ++ e

/-- Sequential execution of the tool calls of one LLM loop iteration,
threading the table through LLMAgent._execute_tool and producing one tool
message per call, in the order the model returned them. -/
def LLMAgent.runToolCalls (t : Table) : List ToolCall → Table × List LCMessage
  | [] => (t, [])
  | tc :: rest =>
    let r := LLMAgent.executeTool t tc.name tc.args
    let rr := LLMAgent.runToolCalls r.1 rest
    (rr.1, LCMessage.tool r.2.render tc.id :: rr.2)

/-- Observed outcome of a run of LLMAgent.chat: a normal return (with the
envelope, the final model response it was built from, and the number of
model invocations performed), an uncaught backend exception propagating to
the caller, or the loop still running after the observation bound of the
embedding was spent.  The source loop has no iteration cap, so the bound
is pure instrumentation: a stillLooping outcome means the source would
still be iterating after that many further invocations. -/
inductive LLMRun where
  | ok (resp : AgentResponse) (finalResponse : ModelResponse) (calls : Nat)
  | raised (error : String) (calls : Nat)
  | stillLooping (calls : Nat)
deriving DecidableEq, Repr

/-- The envelope LLMAgent.chat builds from the final response and the recorded
tool names (backend/agents/llm_agent.py lines 191 to 198). -/
def LLMAgent.finish (resp : ModelResponse) (made : List String) (calls : Nat) : LLMRun :=
  LLMRun.ok
    { message := { role := "assistant", content := resp.content },
      usage := extractUsage resp.token_usage,
      metadata := { agent_type := "llm", tools_used := some made } }
    resp calls

/-- Embeds the unbounded tool-call while loop of LLMAgent.chat
(backend/agents/llm_agent.py lines 134 to 171).  The loop condition is
checked first, exactly as in the source; only then is the observation
budget consulted.  Each round appends the assistant response, executes
every requested call in order through _execute_tool, records the tool
names, and invokes the model again; a backend exception there is not
caught anywhere in chat and propagates. -/
def llmLoop (model : ModelBackend) :
    Nat → Table → List LCMessage → List String → ModelResponse → Nat → LLMRun
  | 0, _, _, made, resp, calls =>
    if resp.tool_calls.isEmpty then LLMAgent.finish resp made calls
    else LLMRun.stillLooping calls
  | fuel2 + 1, t, msgs, made, resp, calls =>
    if resp.tool_calls.isEmpty then LLMAgent.finish resp made calls
    else
      let msgs2 := msgs ++ [LCMessage.ai resp]
      let ex := LLMAgent.runToolCalls t resp.tool_calls
      let msgs3 := msgs2 ++ ex.2
      let made2 := made ++ resp.tool_calls.map ToolCall.name
      match model msgs3 with
      | Except.error e => LLMRun.raised e (calls + 1)
      | Except.ok resp2 => llmLoop model fuel2 ex.1 msgs3 made2 resp2 (calls + 1)

/-- System prompt selection of LLMAgent.chat: the default prompt unless the
conversation carries system turns, in which case the last one wins
(system_messages is replaced wholesale on each system turn). -/
def llmSystemPrompt (defaultPrompt : String) (messages : List Message) : String :=
  messages.foldl (fun acc m => if m.role = "system" then m.content else acc) defaultPrompt

/-- Embeds LLMAgent.chat (backend/agents/llm_agent.py lines 68 to 198),
parameterized by the model backend, the default system prompt constant,
the conversation, the table held by the database singleton, and the
observation budget of the embedding.  The initial invocation is performed
outside the loop and also outside any exception handler. -/
def LLMAgent.chat (model : ModelBackend) (defaultPrompt : String)
    (messages : List Message) (t : Table) (fuel : Nat) : LLMRun :=
  let lc := LCMessage.system (llmSystemPrompt defaultPrompt messages)
              :: messages.filterMap toLCMessage
  match model lc with
  | Except.error e => LLMRun.raised e 1
  | Except.ok resp => llmLoop model fuel t lc [] resp 1

/-- A stub backend that requests the query tool on every invocation,
regardless of the conversation. -/
def stubAlwaysTool : ModelBackend := fun _ =>
  Except.ok { content := "",
              tool_calls := [{ name := "query_database",
                               args := "SELECT * FROM attacks", id := "call1" }],
              token_usage := none }

/-- The response the always-tool stub returns: one query tool call per
invocation, no token usage. -/
theorem stubAlwaysTool_apply (msgs : List LCMessage) :
    stubAlwaysTool msgs
      = Except.ok { content := "",
                    tool_calls := [{ name := "query_database",
                                     args := "SELECT * FROM attacks", id := "call1" }],
                    token_usage := none } := rfl

/-- Against a backend that requests a tool on every response, the LLM chat loop
is still running after any number of further invocations: after spending an
observation budget of fuel it has performed calls plus fuel invocations and
has not produced a result. -/
theorem llmLoop_stubAlwaysTool (fuel : Nat) :
    ∀ (t : Table) (msgs : List LCMessage) (made : List String) (calls : Nat)
      (tc : ToolCall) (c : String) (u : Option TokenUsage),
      llmLoop stubAlwaysTool fuel t msgs made ⟨c, [tc], u⟩ calls
        = LLMRun.stillLooping (calls + fuel) := by
  induction fuel with
  | zero => intro t msgs made calls tc c u; rfl
  | succ n ih =>
    intro t msgs made calls tc c u
    have hstep : llmLoop stubAlwaysTool (n + 1) t msgs made ⟨c, [tc], u⟩ calls
        = llmLoop stubAlwaysTool n (LLMAgent.runToolCalls t [tc]).1
            (msgs ++ [LCMessage.ai ⟨c, [tc], u⟩] ++ (LLMAgent.runToolCalls t [tc]).2)
            (made ++ List.map ToolCall.name [tc])
            ⟨"", [⟨"query_database", "SELECT * FROM attacks", "call1"⟩], none⟩ (calls + 1) := rfl
    rw [hstep, ih]
    have harith : calls + 1 + n = calls + (n + 1) := by omega
    rw [harith]

/-- C1: the claim says every agent chat call performs at most 5 model
invocations, with the loop stopping at exactly the cap under a stub model
that always requests a tool.  The non-streaming LLMAgent.chat loop has no
iteration cap: under that stub it has already performed fuel + 1 model
invocations and is still looping, for every observation bound fuel, so its
invocation count exceeds 5 (take fuel at least 5) and the loop never
stops.  The cap exists in ReACTAgent.chat and in both streaming variants,
whose source comments it as loop protection, so the uncapped loop
contradicts the documented intent of the code itself. -/
theorem C1_llm_chat_loop_uncapped (fuel : Nat) :
    LLMAgent.chat stubAlwaysTool "SYS" [⟨"user", "hi"⟩] [] fuel
      = LLMRun.stillLooping (1 + fuel) := by
  show llmLoop stubAlwaysTool fuel _ _ _ _ _ = _
  rw [llmLoop_stubAlwaysTool]

/-- Every engine execution is one of: the whole-table delete (no result set,
table emptied), a full select, a limited select, or a syntax error leaving
the table unchanged. -/
theorem sqliteExec_cases (sql : String) (t : Table) :
    (sqliteExec sql t = { table := [], result := Except.ok none })
    ∨ (sqliteExec sql t = { table := t, result := Except.ok (some t) })
    ∨ (∃ n, sqliteExec sql t = { table := t, result := Except.ok (some (t.take n)) })
    ∨ (sqliteExec sql t = { table := t, result := Except.error "syntax error" }) := by
  by_cases hdel : normalizeSql sql = "DELETE FROM attacks"
  · left
    simp [sqliteExec, hdel]
  · rcases hp : parseLimitedSelect (normalizeSql sql) with _ | (_ | m)
    · right; right; right
      simp [sqliteExec, hdel, hp]
    · right; left
      simp [sqliteExec, hdel, hp]
    · right; right; left
      exact ⟨m, by simp [sqliteExec, hdel, hp]⟩

/-- C2 counterexample: the query tool enforces no read-only discipline.  The
model-suppliable query string DELETE FROM attacks -- LIMIT contains the
substring LIMIT (inside a comment), so no limit is appended; the engine
executes the delete, emptying the table, and only the subsequent read of
the empty cursor description turns into a failure envelope.  The table
contents are not left unchanged, refuting the claim. -/
theorem C2_delete_mutates_table :
    (query_database "DELETE FROM attacks -- LIMIT" [["r"]]).1 = ([] : Table)
    ∧ ([] : Table) ≠ [["r"]]
    ∧ (query_database "DELETE FROM attacks -- LIMIT" [["r"]]).2
        = ToolEnvelope.failure noneDescriptionError := by
  refine ⟨by decide, by decide, by decide⟩

/-- C2 amended: every query whose execution yields a success envelope (a
statement the engine runs as a read) leaves the attacks table unchanged;
mutating statements are not blocked, they merely surface as failures while
their table effect persists. -/
theorem C2_select_success_preserves_table :
    ∀ (q : String) (t t2 : Table) (n : Nat) (rows : List Row),
      query_database q t = (t2, ToolEnvelope.success n rows) → t2 = t := by
  intro q t t2 n rows h
  unfold query_database DatabaseService.query sqliteExec at h
  by_cases hdel : normalizeSql (applyDefaultLimit q) = "DELETE FROM attacks"
  · simp [hdel] at h
  · simp only [hdel, if_false, if_neg hdel] at h
    rcases hp : parseLimitedSelect (normalizeSql (applyDefaultLimit q)) with _ | ⟨_ | m⟩ <;>
      simp [hp] at h <;> exact h.1.symm

/-- C2 witness: a concrete select succeeds and the table is unchanged. -/
theorem C2_select_success_preserves_table_witness :
    query_database "SELECT * FROM attacks" [["r"]] = ([["r"]], ToolEnvelope.success 1 [["r"]])
    ∧ ([["r"]] : Table) = [["r"]] :=
  ⟨by decide, C2_select_success_preserves_table "SELECT * FROM attacks" [["r"]] [["r"]] 1 [["r"]] (by decide)⟩

/-- C3 counterexample: a backend exception during the non-streaming
LLMAgent.chat is not caught by the agent; the raise propagates to the
caller instead of becoming a normal result envelope, refuting the claim
for this agent (its chat has no exception handler; the HTTP route catches
it one layer up). -/
theorem C3_llm_chat_propagates_backend_error :
    LLMAgent.chat (fun _ => Except.error "boom") "SYS" [⟨"user", "hi"⟩] [] 5
      = LLMRun.raised "boom" 1 := rfl

/-- C3 amended: ReACTAgent.chat does catch a raising backend and returns a
normal response whose text explains the failure and whose metadata error
entry carries the non-empty message; the non-streaming LLMAgent.chat lets
the exception propagate. -/
theorem C3_react_chat_catches_backend_error :
    ∀ (tools : List Tool) (sys : String) (messages : List Message) (e : String),
      e ≠ "" →
      (∃ m ∈ messages, m.role = "user" ∨ m.role = "assistant") →
      (ReACTAgent.chat tools (fun _ => Except.error e) sys messages).message.content
          = "I encountered an error while processing your request: " ++ e
      ∧ (ReACTAgent.chat tools (fun _ => Except.error e) sys messages).metadata.error = some e
      ∧ (ReACTAgent.chat tools (fun _ => Except.error e) sys messages).metadata.error ≠ some "" := by
  intro tools sys messages e he ⟨m, hm, hrole⟩
  have hfm : messages.filterMap toLCMessage ≠ [] := by
    intro hnil
    rw [List.filterMap_eq_nil_iff] at hnil
    have := hnil m hm
    rcases hrole with h1 | h1 <;> simp [toLCMessage, h1] at this
  have hlen : (LCMessage.system sys :: messages.filterMap toLCMessage).length ≠ 1 := by
    simp [List.length_eq_zero, hfm]
  unfold ReACTAgent.chat ReACTAgent.chatCore
  simp only [if_neg hlen]
  rw [show reactLoop tools (fun _ => Except.error e) 5 0 0
        (LCMessage.system sys :: messages.filterMap toLCMessage) = Except.error (e, 1) from rfl]
  refine ⟨rfl, rfl, ?_⟩
  simp [he]

/-- C3 witness: the ReACT catch path at a concrete raising backend. -/
theorem C3_react_chat_catches_backend_error_witness :
    ("boom" : String) ≠ ""
    ∧ (∃ m ∈ ([⟨"user", "hi"⟩] : List Message), m.role = "user" ∨ m.role = "assistant")
    ∧ (ReACTAgent.chat reactTools (fun _ => Except.error "boom") "SYS" [⟨"user", "hi"⟩]).message.content
        = "I encountered an error while processing your request: boom" := by
  refine ⟨by decide, ⟨⟨"user", "hi"⟩, by decide, Or.inl rfl⟩, ?_⟩
  have h := (C3_react_chat_catches_backend_error reactTools "SYS" [⟨"user", "hi"⟩] "boom"
      (by decide) ⟨⟨"user", "hi"⟩, by simp, Or.inl rfl⟩).1
  rw [h]
  decide

/-- A 51-row table, exceeding the default row cap. -/
def bigTable : Table := List.replicate 51 ["x"]

/-- C4 counterexample: the query SELECT * FROM attacks -- LIMIT carries no
limit clause (the engine parses it as an unlimited select; LIMIT appears
only inside a comment), yet because the substring LIMIT occurs in the
text, the tool appends nothing and 51 rows come back, refuting both parts
of the claim. -/
theorem C4_comment_query_skips_limit :
    applyDefaultLimit "SELECT * FROM attacks -- LIMIT" = "SELECT * FROM attacks -- LIMIT"
    ∧ parseLimitedSelect (normalizeSql "SELECT * FROM attacks -- LIMIT") = some none
    ∧ (query_database "SELECT * FROM attacks -- LIMIT" bigTable).2
        = ToolEnvelope.success 51 bigTable
    ∧ ¬ (51 ≤ 50) := by
  refine ⟨by decide, by decide, by decide, by decide⟩

/-- C4 amended: the appending convention is keyed on the substring LIMIT in
the uppercased stripped query, not on the presence of a limit clause:
whenever that substring is absent the executed text is the stripped query
with LIMIT 50 appended, and for the plain select-all query the returned
row count is at most 50 on every table. -/
theorem C4_substring_limit_convention :
    (∀ q : String, containsToken (upperString (String.mk (trimChars q.data))) "LIMIT" = false →
        applyDefaultLimit q = String.mk (trimChars q.data) ++ " LIMIT 50")
    ∧ (∀ t : Table,
        query_database "SELECT * FROM attacks" t
          = (t, ToolEnvelope.success (List.take 50 t).length (List.take 50 t))
        ∧ (List.take 50 t).length ≤ 50) := by
  constructor
  · intro q h
    simp only [applyDefaultLimit]
    rw [h]
    simp
  · intro t
    refine ⟨rfl, ?_⟩
    simp [List.length_take]

/-- C4 witness: the convention applied at a concrete query and table. -/
theorem C4_substring_limit_convention_witness :
    containsToken (upperString (String.mk (trimChars ("SELECT 1").data))) "LIMIT" = false
    ∧ applyDefaultLimit "SELECT 1" = "SELECT 1 LIMIT 50"
    ∧ (List.take 50 [["a"]]).length ≤ 50 :=
  ⟨by decide, (C4_substring_limit_convention.1 "SELECT 1" (by decide)).trans (by decide),
    (C4_substring_limit_convention.2 [["a"]]).2⟩

/-- A stub backend response requesting one run-query tool call while carrying
its own text content. -/
def stubToolResp : ModelResponse :=
  { content := "thinking",
    tool_calls := [{ name := "run query", args := "SELECT * FROM attacks", id := "id1" }],
    token_usage := none }

/-- C5 counterexample: when the cap is reached while the stub model still
requests a tool, ReACTAgent.chat answers with the content of the last
accumulated message, which is the last tool result, not the last model
response: the returned text is the tool output even though every model
response carried the text thinking, refuting the claim that the last model
response is returned as-is. -/
theorem C5_capped_exit_not_model_response :
    (ReACTAgent.chat reactTools (fun _ => Except.ok stubToolResp) "SYS" [⟨"user", "hi"⟩]).message.content
      = "QUERY_RESULT"
    ∧ stubToolResp.content = "thinking"
    ∧ ("QUERY_RESULT" : String) ≠ "thinking" := by
  refine ⟨rfl, rfl, by decide⟩

/-- C5 amended: on reaching the cap with a backend that requests one tool call
per response, the loop exits quietly after exactly 5 iterations and 5
model invocations, without an error entry, and the answer text is the
result string of the last executed tool call (the last message of the
accumulated conversation). -/
theorem C5_capped_exit_returns_last_tool_result :
    ∀ (tools : List Tool) (sys m c args id2 nm : String) (u : Option TokenUsage),
      ReACTAgent.chatCore tools (fun _ => Except.ok ⟨c, [⟨nm, args, id2⟩], u⟩) sys [⟨"user", m⟩]
        = ({ message := ⟨"assistant", strToolResult tools ⟨nm, args, id2⟩⟩, usage := none,
             metadata := ⟨"react", none, some (tools.map Tool.name), some 5⟩ }, 5) := by
  intro tools sys m c args id2 nm u
  rfl

/-- C6 counterexample: with a stub backend that never requests a tool, the
tools-used metadata of ReACTAgent.chat is the list of the available
registry tool names, not the empty list the claim requires. -/
theorem C6_react_tools_used_not_empty :
    (ReACTAgent.chat reactTools (fun _ => Except.ok ⟨"hello", [], none⟩) "SYS" [⟨"user", "hi"⟩]).metadata.tools_used
      = some ["run query", "describe schema"]
    ∧ some ["run query", "describe schema"] ≠ some ([] : List String) := by
  refine ⟨rfl, by decide⟩

/-- C6 amended: when the backend returns zero tool calls on the first
invocation, both agents perform exactly one model invocation and return
its text unchanged; ReACTAgent reports iterations 1 but fills tools-used
with the available tool names, while LLMAgent reports an empty tools-used
list and no iteration count at all. -/
theorem C6_single_call_direct_answer :
    ∀ (tools : List Tool) (sys m c : String) (u : Option TokenUsage) (t : Table) (fuel : Nat),
      ReACTAgent.chatCore tools (fun _ => Except.ok ⟨c, [], u⟩) sys [⟨"user", m⟩]
        = ({ message := ⟨"assistant", c⟩, usage := none,
             metadata := ⟨"react", none, some (tools.map Tool.name), some 1⟩ }, 1)
      ∧ LLMAgent.chat (fun _ => Except.ok ⟨c, [], u⟩) sys [⟨"user", m⟩] t fuel
        = LLMRun.ok { message := ⟨"assistant", c⟩, usage := extractUsage u,
                      metadata := ⟨"llm", none, some [], none⟩ } ⟨c, [], u⟩ 1 := by
  intro tools sys m c u t fuel
  refine ⟨rfl, ?_⟩
  cases fuel <;> rfl

/-- C7 counterexample: the MCP dispatcher raises a ValueError for a tool name
outside the registry (modelled as the error outcome), so dispatch of an
unknown tool does throw out of this dispatcher instead of returning a
failure envelope, refuting the claim for the cited dispatcher. -/
theorem C7_mcp_unknown_tool_raises :
    (handle_call_tool [["a"]] "bogus_tool" "").2 = Except.error "Unknown tool: bogus_tool"
    ∧ (handle_call_tool [["a"]] "bogus_tool" "").2.isOk = false := by
  refine ⟨rfl, rfl⟩

/-- C7 amended: for every tool name outside the registry, the agent-side
dispatcher LLMAgent._execute_tool returns the unknown-tool failure
envelope without throwing and without touching the table, while the MCP
server dispatcher raises a ValueError carrying the same message. -/
theorem C7_unknown_tool_dispatch :
    ∀ (t : Table) (name args : String),
      name ≠ "query_database" → name ≠ "get_database_info" →
      LLMAgent.executeTool t name args = (t, ToolReply.unknownTool ("Unknown tool: " ++ name))
      ∧ (handle_call_tool t name args).2 = Except.error ("Unknown tool: " ++ name) := by
  intro t name args h1 h2
  constructor
  · unfold LLMAgent.executeTool
    rw [if_neg h1, if_neg h2]
  · unfold handle_call_tool
    rw [if_neg h1, if_neg h2]

/-- C7 witness: the dispatch outcomes at a concrete unknown name. -/
theorem C7_unknown_tool_dispatch_witness :
    LLMAgent.executeTool [["a"]] "bad_tool" "" = ([["a"]], ToolReply.unknownTool "Unknown tool: bad_tool")
    ∧ (handle_call_tool [["a"]] "bad_tool" "").2 = Except.error "Unknown tool: bad_tool" :=
  C7_unknown_tool_dispatch [["a"]] "bad_tool" "" (by decide) (by decide)

/-- C8: a query string the engine rejects produces an error with a non-empty
message, and the tool wrapper converts it into the failure envelope with
that message; the wrapper is a total function, so nothing propagates to
its caller.  The spec names the failure QueryError; the source raises the
underlying engine exception and the wrapper catches every exception. -/
theorem C8_malformed_query_error_envelope :
    ∀ (q : String) (t : Table) (e : String),
      (DatabaseService.query (applyDefaultLimit q) t).2 = Except.error e →
      e ≠ "" ∧ (query_database q t).2 = ToolEnvelope.failure e := by
  intro q t e h
  have henv : (query_database q t).2 = ToolEnvelope.failure e := by
    simp only [query_database]
    rw [h]
  refine ⟨?_, henv⟩
  rcases sqliteExec_cases (applyDefaultLimit q) t with hc | hc | ⟨n, hc⟩ | hc <;>
    simp only [DatabaseService.query, hc] at h
  · simp at h
    rw [← h]
    decide
  · simp at h
  · simp at h
  · simp at h
    rw [← h]
    decide

/-- C8 witness: a concrete malformed query string. -/
theorem C8_malformed_query_error_envelope_witness :
    (DatabaseService.query (applyDefaultLimit "BOGUS") [["a"]]).2 = Except.error "syntax error"
    ∧ ("syntax error" : String) ≠ ""
    ∧ (query_database "BOGUS" [["a"]]).2 = ToolEnvelope.failure "syntax error" := by
  refine ⟨rfl, ?_, ?_⟩
  · exact (C8_malformed_query_error_envelope "BOGUS" [["a"]] "syntax error" rfl).1
  · exact (C8_malformed_query_error_envelope "BOGUS" [["a"]] "syntax error" rfl).2

/-- Token usage reported by the first, discarded invocation of the two-call
scenario. -/
def usageFirst : TokenUsage := ⟨some 10, some 5, some 15⟩

/-- Token usage reported by the final invocation of the two-call scenario. -/
def usageFinal : TokenUsage := ⟨some 20, some 7, some 27⟩

/-- First stub response: one tool call, with token counts. -/
def respToolCall : ModelResponse :=
  { content := "",
    tool_calls := [{ name := "query_database", args := "SELECT * FROM attacks", id := "id1" }],
    token_usage := some usageFirst }

/-- Final stub response: plain text, with token counts. -/
def respFinal : ModelResponse :=
  { content := "done", tool_calls := [], token_usage := some usageFinal }

/-- A stub backend whose first invocation (conversation of length two)
requests a tool and whose second invocation answers directly. -/
def stubTwoCalls : ModelBackend := fun msgs =>
  Except.ok (if msgs.length ≤ 2 then respToolCall else respFinal)

/-- C9 counterexample: over two model invocations reporting token counts
10, 5, 15 and 20, 7, 27, the final envelope carries 20, 7, 27, the counts
of the final invocation alone; the sums 30, 12, 42 over all invocations
are not what the envelope reports, refuting the accumulation claim. -/
theorem C9_usage_not_accumulated :
    LLMAgent.chat stubTwoCalls "SYS" [⟨"user", "hi"⟩] [["a"]] 5
      = LLMRun.ok
          { message := ⟨"assistant", "done"⟩,
            usage := some ⟨20, 7, 27⟩,
            metadata := ⟨"llm", none, some ["query_database"], none⟩ }
          respFinal 2
    ∧ (⟨20, 7, 27⟩ : Usage) ≠ ⟨10 + 20, 5 + 7, 15 + 27⟩ := by
  refine ⟨by decide, by decide⟩

/-- Whenever the LLM loop returns normally, the usage of the envelope is
extracted from the token metadata of the final model response alone. -/
theorem llmLoop_ok_usage (fuel : Nat) :
    ∀ (model : ModelBackend) (t : Table) (msgs : List LCMessage) (made : List String)
      (resp : ModelResponse) (calls : Nat) (r : AgentResponse) (fr : ModelResponse) (c : Nat),
      llmLoop model fuel t msgs made resp calls = LLMRun.ok r fr c →
      r.usage = extractUsage fr.token_usage := by
  induction fuel with
  | zero =>
    intro model t msgs made resp calls r fr c h
    unfold llmLoop at h
    by_cases he : resp.tool_calls.isEmpty <;> simp [he, LLMAgent.finish] at h
    exact h.1.symm ▸ (h.2.1.symm ▸ rfl)
  | succ n ih =>
    intro model t msgs made resp calls r fr c h
    unfold llmLoop at h
    by_cases he : resp.tool_calls.isEmpty
    · simp [he, LLMAgent.finish] at h
      exact h.1.symm ▸ (h.2.1.symm ▸ rfl)
    · simp only [he, if_false, Bool.false_eq_true] at h
      rcases hm : model _ with e | resp2
      · rw [hm] at h; simp at h
      · rw [hm] at h
        exact ih model _ _ _ resp2 (calls + 1) r fr c h

/-- C9 amended: the usage counters of the LLMAgent.chat envelope are the token
counts reported by the final model invocation only, with earlier
iterations discarded, and a final response without token metadata yields
an empty usage dict rather than an error (extractUsage maps absence to
the empty dict). -/
theorem C9_usage_from_final_response :
    ∀ (model : ModelBackend) (sys : String) (messages : List Message) (t : Table)
      (fuel calls : Nat) (r : AgentResponse) (fr : ModelResponse),
      LLMAgent.chat model sys messages t fuel = LLMRun.ok r fr calls →
      r.usage = extractUsage fr.token_usage := by
  intro model sys messages t fuel calls r fr h
  simp only [LLMAgent.chat] at h
  rcases hm : model (LCMessage.system (llmSystemPrompt sys messages)
      :: List.filterMap toLCMessage messages) with e | resp <;> rw [hm] at h
  · simp at h
  · exact llmLoop_ok_usage fuel model t _ [] resp 1 r fr calls h

/-- C9 witness: a backend reporting no token metadata yields the empty usage
dict without an error. -/
theorem C9_usage_from_final_response_witness :
    LLMAgent.chat (fun _ => Except.ok ⟨"hi", [], none⟩) "SYS" [⟨"user", "m"⟩] [] 3
      = LLMRun.ok ⟨⟨"assistant", "hi"⟩, none, ⟨"llm", none, some [], none⟩⟩ ⟨"hi", [], none⟩ 1
    ∧ (⟨⟨"assistant", "hi"⟩, none, ⟨"llm", none, some [], none⟩⟩ : AgentResponse).usage
        = extractUsage (⟨"hi", [], none⟩ : ModelResponse).token_usage := by
  refine ⟨rfl, ?_⟩
  exact C9_usage_from_final_response (fun _ => Except.ok ⟨"hi", [], none⟩) "SYS"
    [⟨"user", "m"⟩] [] 3 1 _ _ rfl

/-- C10: a conversation with no user turn and no assistant turn converts to
the lone system message, so ReACTAgent.chat performs zero model
invocations and returns the no-messages response: assistant text No
messages provided, agent type react, error entry No messages. -/
theorem C10_no_conversation_early_return :
    ∀ (tools : List Tool) (model : ModelBackend) (sys : String) (messages : List Message),
      (∀ m ∈ messages, m.role ≠ "user" ∧ m.role ≠ "assistant") →
      ReACTAgent.chatCore tools model sys messages = (noMessagesResponse, 0) := by
  intro tools model sys messages h
  have hfm : messages.filterMap toLCMessage = [] := by
    rw [List.filterMap_eq_nil_iff]
    intro m hm
    have := h m hm
    simp [toLCMessage, this.1, this.2]
  simp [ReACTAgent.chatCore, hfm]

/-- C10 witness: a conversation holding only a system turn. -/
theorem C10_no_conversation_early_return_witness :
    (∀ m ∈ ([⟨"system", "x"⟩] : List Message), m.role ≠ "user" ∧ m.role ≠ "assistant")
    ∧ ReACTAgent.chatCore [] (fun _ => Except.error "e") "SYS" [⟨"system", "x"⟩]
        = (noMessagesResponse, 0) :=
  ⟨by decide, C10_no_conversation_early_return [] (fun _ => Except.error "e") "SYS"
    [⟨"system", "x"⟩] (by decide)⟩
